import Mathlib

/-!
Verification of the Large-Dataset-EDA-Automation pipeline.

Shallow embedding of the two scripts:
* `generate_dummy_data.py` — the Dataset Generator (random sources are
  modelled as explicit functions from row index to raw draws; the numpy
  primitives `randint`, `uniform`, `choice` and `round` are embedded with
  their documented semantics).
* `automated_eda_duckdb.py` — the EDA Reporter: the two DuckDB aggregation
  queries are embedded by their SQL semantics over a list of transaction
  records, and `automated_exploratory_analysis` is embedded as a function
  from a typed data frame to the list of artifacts it emits, in emission
  order.
-/

namespace EDA

/-! ## Timestamps and transaction records (schema of the parquet file) -/

/-- A timestamp: a calendar day (as an integer day number) plus a
time-of-day component.  `CAST (ts AS DATE)` keeps only the day. -/
structure Timestamp where
  day : Int
  tod : Nat
  deriving DecidableEq, Repr

/-- One row of `large_transactions.parquet`, exactly the columns built in
the `data` dictionary of `generate_dummy_data.py`.  Prices are exact
2-decimal values represented as rationals. -/
structure Transaction where
  transaction_id : Nat
  product_id : Nat
  customer_id : Nat
  transaction_date : Timestamp
  quantity : Nat
  price_per_item : Rat
  store_location : String
  product_category : String
  deriving DecidableEq, Repr

/-! ## Numpy primitives used by the generator -/

/-- `np.random.randint(lo, hi)`: an integer in `[lo, hi)`, derived here
from a raw draw `r`. -/
def randint (lo hi r : Nat) : Nat := lo + r % (hi - lo)

/-- `np.random.choice(l, p=...)`: some element of `l`, derived from a raw
draw `r`; the weights only affect the distribution, not the support. -/
def npChoice (l : List String) (r : Nat) : String := l.getD (r % l.length) ""

/-- `np.random.uniform(lo, hi)`: `lo + u * (hi - lo)` for a unit draw
`u ∈ [0, 1)`. -/
def npUniform (lo hi u : Rat) : Rat := lo + u * (hi - lo)

/-- `np.round(x, 2)`: x rounded to 2 decimal places. -/
def npRound2 (q : Rat) : Rat := ((round (q * 100) : Int) : Rat) / 100

/-- The store vocabulary of `generate_dummy_data.py`. -/
def STORES : List String := ["New York", "London", "Online", "Tokyo", "Sydney"]

/-- The product-category vocabulary of `generate_dummy_data.py`. -/
def CATEGORIES : List String := ["Electronics", "Apparel", "Groceries", "Books", "Home Goods"]

/-- `NUM_ROWS = 10_000_000`. -/
def NUM_ROWS : Nat := 10000000

/-- The raw randomness consumed by the generator: for each column one
stream of draws indexed by row number.  `priceU` is the unit draw fed to
`np.random.uniform(5.50, 500.99)`; `dateD` is the timestamp drawn by
`fake.date_time_this_decade()`. -/
structure RandomSource where
  prodR : Nat → Nat
  custR : Nat → Nat
  dateD : Nat → Timestamp
  qtyR : Nat → Nat
  priceU : Nat → Rat
  storeR : Nat → Nat
  catR : Nat → Nat

/-- Row `i` of the `data` dictionary: `transaction_id` is `range(NUM_ROWS)`
at position `i`, the other columns are the corresponding random draws. -/
def genRow (rs : RandomSource) (i : Nat) : Transaction :=
  { transaction_id := i
    product_id := randint 1000 2000 (rs.prodR i)
    customer_id := randint 10000 20000 (rs.custR i)
    transaction_date := rs.dateD i
    quantity := randint 1 6 (rs.qtyR i)
    price_per_item := npRound2 (npUniform (550 / 100) (50099 / 100) (rs.priceU i))
    store_location := npChoice STORES (rs.storeR i)
    product_category := npChoice CATEGORIES (rs.catR i) }

/-- The full generated dataset (the DataFrame written to parquet). -/
def generateData (rs : RandomSource) (n : Nat) : List Transaction :=
  (List.range n).map (genRow rs)

/-! ## Filesystem model for the generator script -/

/-- The state of the target path: `none` when `FILENAME` does not exist,
`some rows` when it holds a parquet file with those rows. -/
abbrev FsState := Option (List Transaction)

/-- Result of one run of `generate_dummy_data.py`: the new state of the
target path together with how many file writes were performed. -/
structure GenResult where
  fs : FsState
  writes : Nat
  deriving DecidableEq

/-- `generate_dummy_data.py`: if the file exists, print and skip (no
write); otherwise build the DataFrame and write it to parquet. -/
def runGenerator (rs : RandomSource) (s : FsState) : GenResult :=
  match s with
  | some rows => { fs := some rows, writes := 0 }
  | none => { fs := some (generateData rs NUM_ROWS), writes := 1 }

/-! ## Data frames as seen by the Report Stage -/

/-- Pandas dtypes relevant to the pipeline. -/
inductive Dtype
  | int64
  | float64
  | bool
  | object
  | category
  | datetime
  deriving DecidableEq, Repr

/-- `select_dtypes(include=np.number)` keeps exactly the numeric dtypes. -/
def Dtype.isNumeric : Dtype → Bool
  | .int64 => true
  | .float64 => true
  | _ => false

/-- `select_dtypes(include=['object', 'category'])` — the dtypes whose
columns enter the categorical block of the text summary. -/
def Dtype.isSummaryCategorical : Dtype → Bool
  | .object => true
  | .category => true
  | _ => false

/-- `select_dtypes(include=['object', 'category', 'bool'])` — the dtypes
whose columns get a count plot. -/
def Dtype.isPlotCategorical : Dtype → Bool
  | .object => true
  | .category => true
  | .bool => true
  | _ => false

/-- A cell value of a data frame. -/
inductive CellVal
  | intV (i : Int)
  | floatV (q : Rat)
  | boolV (b : Bool)
  | strV (s : String)
  | dateV (d : Int)
  deriving DecidableEq, Repr

/-- One named, typed column; `none` cells are nulls. -/
structure Column where
  name : String
  dtype : Dtype
  cells : List (Option CellVal)
  deriving DecidableEq, Repr

/-- An analysis table: an ordered sequence of named, typed columns. -/
structure DataFrame where
  cols : List Column
  deriving DecidableEq, Repr

/-- `df.isnull().sum()` for one column is positive iff some cell is null. -/
def colHasNull (c : Column) : Bool := c.cells.any (fun v => v.isNone)

/-- Names of the columns entering the summary's categorical block
(line 51 of the report script). -/
def summaryCatCols (df : DataFrame) : List String :=
  (df.cols.filter (fun c => c.dtype.isSummaryCategorical)).map (fun c => c.name)

/-- `numerical_cols` (line 69 of the report script). -/
def numericalCols (df : DataFrame) : List String :=
  (df.cols.filter (fun c => c.dtype.isNumeric)).map (fun c => c.name)

/-- `categorical_cols` (line 70 of the report script). -/
def categoricalCols (df : DataFrame) : List String :=
  (df.cols.filter (fun c => c.dtype.isPlotCategorical)).map (fun c => c.name)

/-- An output artifact of `automated_exploratory_analysis`.  The summary
records the columns of its categorical-statistics block, `none` meaning
the explicit no-categorical-columns notice was written instead.  The
correlation artifact records the columns it covers and the annotation
precision (`fmt=".2f"`). -/
inductive Artifact
  | summary (fname : String) (catBlock : Option (List String))
  | missingChart (fname : String)
  | histBox (fname : String) (col : String)
  | countPlot (fname : String) (col : String)
  | corrMatrix (fname : String) (cols : List String) (fmtDecimals : Nat)
  deriving DecidableEq, Repr

/-- `automated_exploratory_analysis(df, report_title)`: the artifacts the
function writes, in the order the script writes them. -/
def automated_exploratory_analysis (df : DataFrame) (report_title : String) :
    List Artifact :=
  [Artifact.summary (report_title ++ "_summary.txt")
      (if (summaryCatCols df).isEmpty then none else some (summaryCatCols df))]
  ++ (if (df.cols.filter colHasNull).isEmpty then []
      else [Artifact.missingChart (report_title ++ "_missing_values.png")])
  ++ (numericalCols df).map (fun c =>
        Artifact.histBox (report_title ++ "_univariate_" ++ c ++ ".png") c)
  ++ (categoricalCols df).map (fun c =>
        Artifact.countPlot (report_title ++ "_univariate_" ++ c ++ ".png") c)
  ++ (if (numericalCols df).length > 1 then
        [Artifact.corrMatrix (report_title ++ "_correlation_matrix.png")
          (numericalCols df) 2]
      else [])

/-! ### Artifact counters -/

def isSummaryA : Artifact → Bool
  | .summary _ _ => true
  | _ => false

def isMissingA : Artifact → Bool
  | .missingChart _ => true
  | _ => false

def isHistBoxA : Artifact → Bool
  | .histBox _ _ => true
  | _ => false

def isCountPlotA : Artifact → Bool
  | .countPlot _ _ => true
  | _ => false

def isCorrA : Artifact → Bool
  | .corrMatrix _ _ _ => true
  | _ => false

/-- Does this artifact give column `col` a univariate chart? -/
def chartsCol (col : String) : Artifact → Bool
  | .histBox _ c => c = col
  | .countPlot _ c => c = col
  | _ => false

/-! ## Query Stage: SQL semantics of the two aggregations -/

/-- `CAST(transaction_date AS DATE)`. -/
def saleDateOf (t : Transaction) : Int := t.transaction_date.day

/-- One result row of the daily-sales query. -/
structure DailyRow where
  sale_date : Int
  total_revenue : Rat
  number_of_orders : Nat
  average_order_value : Rat
  deriving DecidableEq, Repr

/-- `quantity * price_per_item` of one row. -/
def rowRevenue (t : Transaction) : Rat := (t.quantity : Rat) * t.price_per_item

/-- Semantics of `daily_sales_query`: group the file's rows by
`CAST(transaction_date AS DATE)`, per group take
`SUM(quantity * price_per_item)`, `COUNT(DISTINCT transaction_id)` and
`AVG(quantity * price_per_item)`, and order the groups by `sale_date`
ascending. -/
def daily_sales_query (rows : List Transaction) : List DailyRow :=
  (List.insertionSort (fun a b => a ≤ b)
      ((rows.map saleDateOf).dedup)).map (fun d =>
    let g := rows.filter (fun t => saleDateOf t = d)
    { sale_date := d
      total_revenue := (g.map rowRevenue).sum
      number_of_orders := ((g.map (fun t => t.transaction_id)).dedup).length
      average_order_value := (g.map rowRevenue).sum / (g.length : Rat) })

/-- One result row of the category-performance query. -/
structure CatPerfRow where
  product_category : String
  store_location : String
  transactions_count : Nat
  total_items_sold : Nat
  avg_item_price : Rat
  deriving DecidableEq, Repr

/-- The grouping key of the category-performance query. -/
def catKeyOf (t : Transaction) : String × String :=
  (t.product_category, t.store_location)

/-- Semantics of `category_performance_query`: group the file's rows by
`(product_category, store_location)`, per group take `COUNT(*)`,
`SUM(quantity)` and `ROUND(AVG(price_per_item), 2)`.  The query has no
`ORDER BY`, so the embedding fixes one deterministic group order. -/
def category_performance_query (rows : List Transaction) : List CatPerfRow :=
  ((rows.map catKeyOf).dedup).map (fun k =>
    let g := rows.filter (fun t => catKeyOf t = k)
    { product_category := k.1
      store_location := k.2
      transactions_count := g.length
      total_items_sold := (g.map (fun t => t.quantity)).sum
      avg_item_price :=
        npRound2 ((g.map (fun t => t.price_per_item)).sum / (g.length : Rat)) })

/-! ## The report script's `__main__` block -/

/-- Data frame produced by `fetchdf()` on the daily-sales result, after
the `pd.to_datetime` conversion of `sale_date` (lines 146-148): a
datetime column, two float columns, one integer column, no nulls. -/
def dailySalesDF (res : List DailyRow) : DataFrame :=
  { cols :=
      [ { name := "sale_date", dtype := .datetime
          cells := res.map (fun r => some (CellVal.dateV r.sale_date)) }
      , { name := "total_revenue", dtype := .float64
          cells := res.map (fun r => some (CellVal.floatV r.total_revenue)) }
      , { name := "number_of_orders", dtype := .int64
          cells := res.map (fun r => some (CellVal.intV (r.number_of_orders : Int))) }
      , { name := "average_order_value", dtype := .float64
          cells := res.map (fun r => some (CellVal.floatV r.average_order_value)) } ] }

/-- Data frame produced by `fetchdf()` on the category-performance
result: two object columns, two integer columns, one float column. -/
def categoryDF (res : List CatPerfRow) : DataFrame :=
  { cols :=
      [ { name := "product_category", dtype := .object
          cells := res.map (fun r => some (CellVal.strV r.product_category)) }
      , { name := "store_location", dtype := .object
          cells := res.map (fun r => some (CellVal.strV r.store_location)) }
      , { name := "transactions_count", dtype := .int64
          cells := res.map (fun r => some (CellVal.intV (r.transactions_count : Int))) }
      , { name := "total_items_sold", dtype := .int64
          cells := res.map (fun r => some (CellVal.intV (r.total_items_sold : Int))) }
      , { name := "avg_item_price", dtype := .float64
          cells := res.map (fun r => some (CellVal.floatV r.avg_item_price)) } ] }

/-- Outcome of one run of the report script. -/
structure RunResult where
  messages : List String
  queriesExecuted : Nat
  artifacts : List Artifact
  exitedEarly : Bool
  deriving DecidableEq

/-- The `__main__` block of `automated_eda_duckdb.py`: if `DATA_FILE` does
not exist, print the error and the remediation hint and exit before any
query; otherwise run the two aggregations and report on each.  (The
sample query is only defined as a string, never executed.) -/
def mainScript (fs : FsState) : RunResult :=
  match fs with
  | none =>
      { messages :=
          [ "Error: Data file large_transactions.parquet not found."
          , "Please run generate_dummy_data.py first." ]
        queriesExecuted := 0
        artifacts := []
        exitedEarly := true }
  | some rows =>
      let df_daily_sales := dailySalesDF (daily_sales_query rows)
      let df_category := categoryDF (category_performance_query rows)
      { messages := []
        queriesExecuted := 2
        artifacts :=
          automated_exploratory_analysis df_daily_sales "duckdb_daily_sales"
          ++ automated_exploratory_analysis df_category "duckdb_category_performance"
        exitedEarly := false }

/-! ## Concrete fixtures -/

/-- A degenerate random source (all draws zero), used to instantiate
universally quantified statements at a concrete input. -/
def constSource : RandomSource :=
  { prodR := fun _ => 0
    custR := fun _ => 0
    dateD := fun _ => { day := 0, tod := 0 }
    qtyR := fun _ => 0
    priceU := fun _ => 0
    storeR := fun _ => 0
    catR := fun _ => 0 }

/-- A table with exactly one numeric column, one categorical column and
no nulls. -/
def dfNC : DataFrame :=
  { cols :=
      [ { name := "total_revenue", dtype := .float64, cells := [some (.floatV 10)] }
      , { name := "store", dtype := .object, cells := [some (.strV "Online")] } ] }

/-- A table whose only non-numeric column is boolean. -/
def dfBoolOnly : DataFrame :=
  { cols :=
      [ { name := "x", dtype := .int64
          cells := [some (.intV 1), some (.intV 2)] }
      , { name := "flag", dtype := .bool
          cells := [some (.boolV true), some (.boolV false)] } ] }

/-- The 3-row fixture of the spec: rows 1 and 2 fall on day 0, row 3 on
day 1. -/
def fixture3 : List Transaction :=
  [ { transaction_id := 1, product_id := 1000, customer_id := 10000
      transaction_date := { day := 0, tod := 10 }, quantity := 2
      price_per_item := 10, store_location := "Online", product_category := "Books" }
  , { transaction_id := 2, product_id := 1001, customer_id := 10001
      transaction_date := { day := 0, tod := 20 }, quantity := 1
      price_per_item := 5/2, store_location := "London", product_category := "Apparel" }
  , { transaction_id := 3, product_id := 1002, customer_id := 10002
      transaction_date := { day := 1, tod := 0 }, quantity := 3
      price_per_item := 4, store_location := "Tokyo", product_category := "Books" } ]

/-! ## Helper lemmas -/

/-- None of the per-column chart artifacts is the missing-values chart. -/
lemma countP_missing_histBox (t : String) (l : List String) :
    (l.map (fun c => Artifact.histBox (t ++ "_univariate_" ++ c ++ ".png") c)).countP
      isMissingA = 0 := by
  simp [List.countP_map, Function.comp, isMissingA, List.countP_eq_zero]

lemma countP_missing_countPlot (t : String) (l : List String) :
    (l.map (fun c => Artifact.countPlot (t ++ "_univariate_" ++ c ++ ".png") c)).countP
      isMissingA = 0 := by
  simp [List.countP_map, Function.comp, isMissingA, List.countP_eq_zero]

/-- The number of missing-values charts the report emits. -/
lemma countP_report_missing (df : DataFrame) (t : String) :
    (automated_exploratory_analysis df t).countP isMissingA
      = if (df.cols.filter colHasNull).isEmpty then 0 else 1 := by
  unfold automated_exploratory_analysis
  by_cases h : (df.cols.filter colHasNull).isEmpty <;>
    simp [h, List.countP_append, countP_missing_histBox, countP_missing_countPlot,
      isMissingA]

/-! ## Claims -/

/-- C9: if the required input file is absent when the report script starts,
the script detects this, prints the diagnostic remediation hint, and
terminates before executing any query or producing any report output. -/
theorem missing_input_exits_early :
    mainScript none =
      { messages :=
          [ "Error: Data file large_transactions.parquet not found."
          , "Please run generate_dummy_data.py first." ]
        queriesExecuted := 0
        artifacts := []
        exitedEarly := true } := rfl

/-- C3: the generator is idempotent on an existing output: when the target
file exists the run performs no write and leaves the state unchanged, and
in every state a second run after a first one writes nothing and leaves
the first run's file unchanged. -/
theorem generator_idempotent (rs rs2 : RandomSource) (s : FsState) :
    (∀ rows, s = some rows → runGenerator rs s = { fs := s, writes := 0 })
  ∧ (runGenerator rs2 (runGenerator rs s).fs).fs = (runGenerator rs s).fs
  ∧ (runGenerator rs2 (runGenerator rs s).fs).writes = 0 := by
  refine ⟨fun rows hs => ?_, ?_, ?_⟩ <;> cases s <;>
    simp_all [runGenerator]

/-- C6: the missing-values bar chart is emitted iff some column contains a
null: exactly one such chart when a null exists, zero otherwise. -/
theorem missing_values_chart_gating (df : DataFrame) (t : String) :
    ((automated_exploratory_analysis df t).countP isMissingA
        = if df.cols.any colHasNull then 1 else 0)
  ∧ (((automated_exploratory_analysis df t).countP isMissingA = 1)
        ↔ ∃ c ∈ df.cols, colHasNull c) := by
  have key : (df.cols.filter colHasNull).isEmpty = !df.cols.any colHasNull := by
    by_cases h : df.cols.any colHasNull
    · rw [h]
      rcases List.any_eq_true.mp h with ⟨c, hc, hnull⟩
      simp [List.isEmpty_iff, List.filter_eq_nil_iff]
      exact ⟨c, hc, hnull⟩
    · have h0 : df.cols.any colHasNull = false := by
        cases h2 : df.cols.any colHasNull
        · rfl
        · exact absurd h2 h
      rw [h0]
      simp only [Bool.not_false, List.isEmpty_iff, List.filter_eq_nil_iff]
      intro c hc
      simp only [List.any_eq_true] at h
      exact fun hnull => h ⟨c, hc, hnull⟩
  constructor
  · rw [countP_report_missing, key]
    cases h : df.cols.any colHasNull <;> simp
  · rw [countP_report_missing, key]
    cases h : df.cols.any colHasNull <;>
      simp_all [List.any_eq_true]

lemma filter_corr_histBox (t : String) (l : List String) :
    (l.map (fun c => Artifact.histBox (t ++ "_univariate_" ++ c ++ ".png") c)).filter
      isCorrA = [] := by
  simp [List.filter_eq_nil_iff, isCorrA]

lemma filter_corr_countPlot (t : String) (l : List String) :
    (l.map (fun c => Artifact.countPlot (t ++ "_univariate_" ++ c ++ ".png") c)).filter
      isCorrA = [] := by
  simp [List.filter_eq_nil_iff, isCorrA]

/-- C7: the correlation-matrix heatmap is produced iff the table has more
than one numerical column, and then it covers exactly the numerical
columns with two-decimal annotation. -/
theorem correlation_matrix_gating (df : DataFrame) (t : String) :
    (automated_exploratory_analysis df t).filter isCorrA
      = if (numericalCols df).length > 1 then
          [Artifact.corrMatrix (t ++ "_correlation_matrix.png") (numericalCols df) 2]
        else [] := by
  unfold automated_exploratory_analysis
  by_cases h : (numericalCols df).length > 1 <;>
    by_cases h2 : (df.cols.filter colHasNull).isEmpty <;>
    simp [h, h2, List.filter_append, filter_corr_histBox, filter_corr_countPlot,
      isCorrA]

lemma countP_map_const_false (p : Artifact → Bool) (f : String → Artifact)
    (l : List String) (h : ∀ c, p (f c) = false) : (l.map f).countP p = 0 := by
  rw [List.countP_map]
  exact List.countP_eq_zero.mpr (fun c _ => by simp [Function.comp, h c])

lemma countP_map_const_true (p : Artifact → Bool) (f : String → Artifact)
    (l : List String) (h : ∀ c, p (f c) = true) : (l.map f).countP p = l.length := by
  rw [List.countP_map]
  exact List.countP_eq_length.mpr (fun c _ => by simp [Function.comp, h c])

/-- C5: a table with exactly one numeric column, exactly one categorical
column and no nulls makes the Report Stage emit exactly one summary, one
histogram+boxplot image, one count-plot image, no correlation matrix and
no missing-values chart. -/
theorem report_completeness (df : DataFrame) (t : String) (n c : String)
    (hn : numericalCols df = [n]) (hc : categoricalCols df = [c])
    (hnull : ∀ col ∈ df.cols, colHasNull col = false) :
    (automated_exploratory_analysis df t).countP isSummaryA = 1
  ∧ (automated_exploratory_analysis df t).countP isHistBoxA = 1
  ∧ (automated_exploratory_analysis df t).countP isCountPlotA = 1
  ∧ (automated_exploratory_analysis df t).countP isCorrA = 0
  ∧ (automated_exploratory_analysis df t).countP isMissingA = 0
  ∧ (automated_exploratory_analysis df t).length = 3 := by
  have hfe : df.cols.filter colHasNull = [] :=
    List.filter_eq_nil_iff.mpr (fun a ha => by simp [hnull a ha])
  unfold automated_exploratory_analysis
  rw [hn, hc, hfe]
  simp [List.countP_append, List.countP_cons, isSummaryA, isHistBoxA, isCountPlotA,
    isCorrA, isMissingA]

/-- Witness for C5 at the concrete table `dfNC`. -/
theorem report_completeness_witness :
    (automated_exploratory_analysis dfNC "r").countP isSummaryA = 1
  ∧ (automated_exploratory_analysis dfNC "r").countP isHistBoxA = 1
  ∧ (automated_exploratory_analysis dfNC "r").countP isCountPlotA = 1
  ∧ (automated_exploratory_analysis dfNC "r").countP isCorrA = 0
  ∧ (automated_exploratory_analysis dfNC "r").countP isMissingA = 0
  ∧ (automated_exploratory_analysis dfNC "r").length = 3 :=
  report_completeness dfNC "r" "total_revenue" "store" rfl rfl (by decide)

/-- C4 counterexample: in the table `dfBoolOnly`, whose only non-numeric
column is the boolean column `flag`, the column is classified as
categorical and gets a count plot, but the text summary contains the
no-categorical-columns notice (`none`) instead of a categorical block
mentioning `flag` — refuting the claim that the boolean column appears in
the summary's categorical descriptive statistics. -/
theorem bool_summary_counterexample :
    ("flag" ∈ categoricalCols dfBoolOnly)
  ∧ Artifact.countPlot "r_univariate_flag.png" "flag" ∈
      automated_exploratory_analysis dfBoolOnly "r"
  ∧ ¬ (∃ blk, Artifact.summary "r_summary.txt" (some blk) ∈
          automated_exploratory_analysis dfBoolOnly "r" ∧ "flag" ∈ blk) := by
  have hL : automated_exploratory_analysis dfBoolOnly "r" =
      [ Artifact.summary "r_summary.txt" none
      , Artifact.histBox "r_univariate_x.png" "x"
      , Artifact.countPlot "r_univariate_flag.png" "flag" ] := by rfl
  refine ⟨by decide, ?_, ?_⟩
  · rw [hL]; simp
  · rintro ⟨blk, hmem, _⟩
    rw [hL] at hmem
    simp at hmem

/-- C4 amended: a boolean column is classified as categorical for chart
purposes — it lands in `categorical_cols` and receives a count-plot — but
the summary's categorical descriptive statistics select only `object` and
`category` dtypes, so a table whose only non-numeric column is boolean
gets the no-categorical-columns notice in its text summary. -/
theorem bool_categorical_amended (df : DataFrame) (t : String) :
    (∀ c ∈ df.cols, c.dtype = Dtype.bool →
        c.name ∈ categoricalCols df
      ∧ Artifact.countPlot (t ++ "_univariate_" ++ c.name ++ ".png") c.name ∈
          automated_exploratory_analysis df t
      ∧ c.dtype.isSummaryCategorical = false)
  ∧ ((∀ c ∈ df.cols, c.dtype.isNumeric = true ∨ c.dtype = Dtype.bool) →
      Artifact.summary (t ++ "_summary.txt") none ∈
        automated_exploratory_analysis df t) := by
  constructor
  · intro c hc hb
    have hmem : c.name ∈ categoricalCols df := by
      simp only [categoricalCols, List.mem_map]
      exact ⟨c, List.mem_filter.mpr ⟨hc, by simp [hb, Dtype.isPlotCategorical]⟩, rfl⟩
    refine ⟨hmem, ?_, by simp [hb, Dtype.isSummaryCategorical]⟩
    have hplot :
        Artifact.countPlot (t ++ "_univariate_" ++ c.name ++ ".png") c.name ∈
          (categoricalCols df).map (fun c2 =>
            Artifact.countPlot (t ++ "_univariate_" ++ c2 ++ ".png") c2) :=
      List.mem_map_of_mem _ hmem
    unfold automated_exploratory_analysis
    simp only [List.mem_append]
    tauto
  · intro hall
    have hs : summaryCatCols df = [] := by
      unfold summaryCatCols
      have hfilter : df.cols.filter (fun c => c.dtype.isSummaryCategorical) = [] :=
        List.filter_eq_nil_iff.mpr (fun c hc => by
          rcases hall c hc with h | h
          · cases hd : c.dtype <;>
              simp_all [Dtype.isNumeric, Dtype.isSummaryCategorical]
          · simp [h, Dtype.isSummaryCategorical])
      rw [hfilter]
      rfl
    unfold automated_exploratory_analysis
    rw [hs]
    simp

/-! ### Rounding and sampling lemmas for the generator -/

lemma intCast_le_round (z : Int) (x : Rat) (h : (z : Rat) ≤ x) : z ≤ round x := by
  rw [round_eq]
  exact Int.le_floor.mpr (by linarith)

lemma round_le_intCast (z : Int) (x : Rat) (h : x < (z : Rat)) : round x ≤ z := by
  rw [round_eq]
  have h2 : ⌊x + 1 / 2⌋ < z + 1 := Int.floor_lt.mpr (by push_cast; linarith)
  omega

/-- Rounding to 2 decimals keeps a value of `[5.50, 500.99)` inside
`[5.50, 500.99]`. -/
lemma npRound2_bounds (x : Rat) (hlo : (550 : Rat) / 100 ≤ x)
    (hhi : x < (50099 : Rat) / 100) :
    (550 : Rat) / 100 ≤ npRound2 x ∧ npRound2 x ≤ (50099 : Rat) / 100 := by
  have hl : (550 : Int) ≤ round (x * 100) :=
    intCast_le_round 550 (x * 100) (by push_cast; linarith)
  have hh : round (x * 100) ≤ (50099 : Int) :=
    round_le_intCast 50099 (x * 100) (by push_cast; linarith)
  unfold npRound2
  constructor
  · have : (550 : Rat) ≤ ((round (x * 100) : Int) : Rat) := by exact_mod_cast hl
    linarith
  · have : ((round (x * 100) : Int) : Rat) ≤ (50099 : Rat) := by exact_mod_cast hh
    linarith

/-- Rounding to 2 decimals is idempotent. -/
lemma npRound2_idem (x : Rat) : npRound2 (npRound2 x) = npRound2 x := by
  unfold npRound2
  have h : (((round (x * 100) : Int) : Rat) / 100) * 100 = ((round (x * 100) : Int) : Rat) := by
    field_simp
  rw [h, round_intCast]

/-- The uniform draw stays inside the half-open sampling interval. -/
lemma npUniform_bounds (u : Rat) (h0 : 0 ≤ u) (h1 : u < 1) :
    (550 : Rat) / 100 ≤ npUniform (550 / 100) (50099 / 100) u
  ∧ npUniform (550 / 100) (50099 / 100) u < (50099 : Rat) / 100 := by
  unfold npUniform
  constructor <;> nlinarith

/-- `np.random.choice` picks an element of its vocabulary. -/
lemma npChoice_mem (l : List String) (r : Nat) (h : l ≠ []) : npChoice l r ∈ l := by
  unfold npChoice
  have hl : 0 < l.length := List.length_pos.mpr h
  have hm : r % l.length < l.length := Nat.mod_lt _ hl
  rw [List.getD_eq_getElem l "" hm]
  exact List.getElem_mem hm

/-- C2: every generated row satisfies the per-field range constraints:
sequential unique transaction ids, `quantity ∈ [1, 6)`,
`price_per_item ∈ [5.50, 500.99]` equal to its own 2-decimal rounding,
and categorical values drawn from their declared vocabularies. -/
theorem generator_schema_conformance (rs : RandomSource) (n : Nat)
    (hu : ∀ i, 0 ≤ rs.priceU i ∧ rs.priceU i < 1) :
    ((generateData rs n).map Transaction.transaction_id = List.range n)
  ∧ ((generateData rs n).map Transaction.transaction_id).Nodup
  ∧ (∀ t ∈ generateData rs n,
        (1 ≤ t.quantity ∧ t.quantity < 6)
      ∧ ((550 : Rat) / 100 ≤ t.price_per_item
          ∧ t.price_per_item ≤ (50099 : Rat) / 100
          ∧ npRound2 t.price_per_item = t.price_per_item)
      ∧ t.store_location ∈ STORES ∧ t.product_category ∈ CATEGORIES) := by
  have hids : (generateData rs n).map Transaction.transaction_id = List.range n := by
    unfold generateData
    rw [List.map_map]
    have : (Transaction.transaction_id ∘ genRow rs) = fun i => i := by
      funext i
      rfl
    rw [this, List.map_id_fun']
    rfl
  refine ⟨hids, by rw [hids]; exact List.nodup_range n, ?_⟩
  intro t ht
  rcases List.mem_map.mp ht with ⟨i, _, rfl⟩
  refine ⟨?_, ?_, ?_, ?_⟩
  · show 1 ≤ randint 1 6 (rs.qtyR i) ∧ randint 1 6 (rs.qtyR i) < 6
    unfold randint
    have := Nat.mod_lt (rs.qtyR i) (show 0 < 6 - 1 by omega)
    omega
  · show (550 : Rat) / 100 ≤ npRound2 (npUniform (550 / 100) (50099 / 100) (rs.priceU i)) ∧ _
    have hb := npUniform_bounds (rs.priceU i) (hu i).1 (hu i).2
    have h2 := npRound2_bounds _ hb.1 hb.2
    exact ⟨h2.1, h2.2, npRound2_idem _⟩
  · exact npChoice_mem STORES _ (by simp [STORES])
  · exact npChoice_mem CATEGORIES _ (by simp [CATEGORIES])

/-- Witness for C2 at the degenerate random source and 3 rows. -/
theorem generator_schema_conformance_witness :
    (generateData constSource 3).map Transaction.transaction_id = List.range 3 :=
  (generator_schema_conformance constSource 3
      (fun _ => ⟨by norm_num [constSource], by norm_num [constSource]⟩)).1

/-! ### Column classification lemmas -/

lemma numericalCols_nodup (df : DataFrame)
    (hnd : (df.cols.map Column.name).Nodup) : (numericalCols df).Nodup :=
  List.Nodup.sublist (List.Sublist.map Column.name (List.filter_sublist df.cols)) hnd

lemma categoricalCols_nodup (df : DataFrame)
    (hnd : (df.cols.map Column.name).Nodup) : (categoricalCols df).Nodup :=
  List.Nodup.sublist (List.Sublist.map Column.name (List.filter_sublist df.cols)) hnd

lemma countP_eq_str_zero (l : List String) (col : String) (h : col ∉ l) :
    l.countP (fun c => c = col) = 0 :=
  List.countP_eq_zero.mpr (fun c hc => by
    simp only [decide_eq_true_eq]
    rintro rfl
    exact h hc)

lemma countP_eq_str_le_one (l : List String) (hl : l.Nodup) (col : String) :
    l.countP (fun c => c = col) ≤ 1 := by
  induction l with
  | nil => simp
  | cons a l ih =>
      rcases List.nodup_cons.mp hl with ⟨ha, hl2⟩
      rw [List.countP_cons]
      by_cases hac : a = col
      · have h0 : l.countP (fun c => c = col) = 0 :=
          countP_eq_str_zero l col (fun hc => ha (hac ▸ hc))
        simp [h0, hac]
      · have hd : (decide (a = col)) = false := decide_eq_false hac
        simpa [hd] using ih hl2

/-- The univariate charts column `col` receives: one per occurrence of
`col` among the numerical columns plus one per occurrence among the
categorical columns. -/
lemma countP_report_charts (df : DataFrame) (t : String) (col : String) :
    (automated_exploratory_analysis df t).countP (chartsCol col)
      = (numericalCols df).countP (fun c => c = col)
      + (categoricalCols df).countP (fun c => c = col) := by
  have hh : (chartsCol col ∘ fun c : String =>
      Artifact.histBox (t ++ "_univariate_" ++ c ++ ".png") c)
      = fun c : String => decide (c = col) := by
    funext c
    rfl
  have hcp : (chartsCol col ∘ fun c : String =>
      Artifact.countPlot (t ++ "_univariate_" ++ c ++ ".png") c)
      = fun c : String => decide (c = col) := by
    funext c
    rfl
  unfold automated_exploratory_analysis
  by_cases h2 : (df.cols.filter colHasNull).isEmpty <;>
    by_cases h : (numericalCols df).length > 1 <;>
    simp [h, h2, List.countP_append, List.countP_map, chartsCol] <;>
    simp [hh, hcp]

/-- C10: numeric and categorical classifications are disjoint, each
column receives at most one univariate chart, and a column that is
neither (e.g. a datetime column) receives no chart and appears in
neither descriptive-statistics block. -/
theorem column_classification_disjoint (df : DataFrame) (t : String) (col : String)
    (hnd : (df.cols.map Column.name).Nodup) :
    ¬(col ∈ numericalCols df ∧ col ∈ categoricalCols df)
  ∧ (automated_exploratory_analysis df t).countP (chartsCol col) ≤ 1
  ∧ (∀ c ∈ df.cols, c.dtype = Dtype.datetime →
        c.name ∉ numericalCols df
      ∧ c.name ∉ categoricalCols df
      ∧ c.name ∉ summaryCatCols df
      ∧ (automated_exploratory_analysis df t).countP (chartsCol c.name) = 0) := by
  have hinj : ∀ a ∈ df.cols, ∀ b ∈ df.cols, a.name = b.name → a = b :=
    fun a ha b hb hab => List.inj_on_of_nodup_map hnd ha hb hab
  have hdisj : ∀ x : String, ¬(x ∈ numericalCols df ∧ x ∈ categoricalCols df) := by
    rintro x ⟨h1, h2⟩
    rcases List.mem_map.mp h1 with ⟨a, haf, ha⟩
    rcases List.mem_map.mp h2 with ⟨b, hbf, hb⟩
    rcases List.mem_filter.mp haf with ⟨hamem, hanum⟩
    rcases List.mem_filter.mp hbf with ⟨hbmem, hbcat⟩
    have hab : a = b := hinj a hamem b hbmem (by rw [ha, hb])
    subst hab
    cases hd : a.dtype <;> simp_all [Dtype.isNumeric, Dtype.isPlotCategorical]
  refine ⟨hdisj col, ?_, ?_⟩
  · rw [countP_report_charts]
    by_cases hcn : col ∈ numericalCols df
    · have hc0 : (categoricalCols df).countP (fun c => c = col) = 0 :=
        countP_eq_str_zero _ _ (fun hc => hdisj col ⟨hcn, hc⟩)
      have hle := countP_eq_str_le_one _ (numericalCols_nodup df hnd) col
      omega
    · have hn0 : (numericalCols df).countP (fun c => c = col) = 0 :=
        countP_eq_str_zero _ _ hcn
      have hle := countP_eq_str_le_one _ (categoricalCols_nodup df hnd) col
      omega
  · intro c hc hdt
    have hnum : c.name ∉ numericalCols df := by
      intro hmem
      rcases List.mem_map.mp hmem with ⟨a, haf, ha⟩
      rcases List.mem_filter.mp haf with ⟨hamem, hanum⟩
      have hac : a = c := hinj a hamem c hc ha
      subst hac
      rw [hdt] at hanum
      simp [Dtype.isNumeric] at hanum
    have hcat : c.name ∉ categoricalCols df := by
      intro hmem
      rcases List.mem_map.mp hmem with ⟨a, haf, ha⟩
      rcases List.mem_filter.mp haf with ⟨hamem, hacat⟩
      have hac : a = c := hinj a hamem c hc ha
      subst hac
      rw [hdt] at hacat
      simp [Dtype.isPlotCategorical] at hacat
    have hsum : c.name ∉ summaryCatCols df := by
      intro hmem
      rcases List.mem_map.mp hmem with ⟨a, haf, ha⟩
      rcases List.mem_filter.mp haf with ⟨hamem, hasum⟩
      have hac : a = c := hinj a hamem c hc ha
      subst hac
      rw [hdt] at hasum
      simp [Dtype.isSummaryCategorical] at hasum
    refine ⟨hnum, hcat, hsum, ?_⟩
    rw [countP_report_charts, countP_eq_str_zero _ _ hnum,
      countP_eq_str_zero _ _ hcat]

/-- Witness for C10 at the concrete table `dfNC`. -/
theorem column_classification_disjoint_witness :
    ¬("total_revenue" ∈ numericalCols dfNC ∧ "total_revenue" ∈ categoricalCols dfNC) :=
  (column_classification_disjoint dfNC "r" "total_revenue" (by decide)).1

/-- C1: the daily-sales query returns one row per distinct calendar date
in strictly ascending date order, with `total_revenue` the per-date sum
of `quantity * price_per_item` and `number_of_orders` the per-date count
of distinct transaction ids; on the 3-row fixture spanning 2 dates it
returns exactly the 2 expected rows. -/
theorem daily_sales_correct (rows : List Transaction) :
    ((daily_sales_query rows).map DailyRow.sale_date).Pairwise (fun a b => a < b)
  ∧ (∀ d : Int,
        d ∈ (daily_sales_query rows).map DailyRow.sale_date
          ↔ ∃ t ∈ rows, saleDateOf t = d)
  ∧ (∀ r ∈ daily_sales_query rows,
        r.total_revenue
          = ((rows.filter (fun t => saleDateOf t = r.sale_date)).map rowRevenue).sum
      ∧ r.number_of_orders
          = (((rows.filter (fun t => saleDateOf t = r.sale_date)).map
              (fun t => t.transaction_id)).dedup).length)
  ∧ daily_sales_query fixture3 =
      [ { sale_date := 0, total_revenue := 45 / 2, number_of_orders := 2,
          average_order_value := 45 / 4 }
      , { sale_date := 1, total_revenue := 12, number_of_orders := 1,
          average_order_value := 12 } ] := by
  have hmap : (daily_sales_query rows).map DailyRow.sale_date
      = List.insertionSort (fun a b => a ≤ b) ((rows.map saleDateOf).dedup) := by
    unfold daily_sales_query
    rw [List.map_map]
    exact List.map_id'' (fun d => rfl) _
  refine ⟨?_, ?_, ?_, ?_⟩
  · rw [hmap]
    have hs := List.sorted_insertionSort (fun a b => a ≤ b)
      ((rows.map saleDateOf).dedup)
    have hnd : (List.insertionSort (fun a b => a ≤ b)
        ((rows.map saleDateOf).dedup)).Nodup :=
      ((List.perm_insertionSort (fun a b => a ≤ b) _).nodup_iff).mpr
        (List.nodup_dedup _)
    exact hs.lt_of_le hnd
  · intro d
    rw [hmap, (List.perm_insertionSort (fun a b => a ≤ b) _).mem_iff,
      List.mem_dedup, List.mem_map]
  · intro r hr
    unfold daily_sales_query at hr
    rcases List.mem_map.mp hr with ⟨d, _, rfl⟩
    exact ⟨rfl, rfl⟩
  · simp [daily_sales_query, fixture3, saleDateOf, rowRevenue, List.insertionSort,
      List.orderedInsert, List.dedup_cons_of_mem, List.dedup_cons_of_not_mem]
    norm_num

/-- C8: the category-performance query returns one row per distinct
`(product_category, store_location)` pair present in the data, with
`transactions_count` the group size, `total_items_sold` the group's
quantity sum, and `avg_item_price` the group's average price rounded to
2 decimals. -/
theorem category_performance_correct (rows : List Transaction) :
    ((category_performance_query rows).map
        (fun r => (r.product_category, r.store_location))).Nodup
  ∧ (∀ p : String × String,
        p ∈ (category_performance_query rows).map
              (fun r => (r.product_category, r.store_location))
          ↔ ∃ t ∈ rows, catKeyOf t = p)
  ∧ (∀ r ∈ category_performance_query rows,
        r.transactions_count
          = (rows.filter
              (fun t => catKeyOf t = (r.product_category, r.store_location))).length
      ∧ r.total_items_sold
          = ((rows.filter
              (fun t => catKeyOf t = (r.product_category, r.store_location))).map
                (fun t => t.quantity)).sum
      ∧ r.avg_item_price
          = npRound2
              (((rows.filter
                  (fun t => catKeyOf t = (r.product_category, r.store_location))).map
                    (fun t => t.price_per_item)).sum
                / (((rows.filter
                    (fun t => catKeyOf t =
                      (r.product_category, r.store_location))).length : Rat)))) := by
  have hmap : (category_performance_query rows).map
      (fun r => (r.product_category, r.store_location)) = (rows.map catKeyOf).dedup := by
    unfold category_performance_query
    rw [List.map_map]
    exact List.map_id'' (fun k => rfl) _
  refine ⟨?_, ?_, ?_⟩
  · rw [hmap]
    exact List.nodup_dedup _
  · intro p
    rw [hmap, List.mem_dedup, List.mem_map]
  · intro r hr
    unfold category_performance_query at hr
    rcases List.mem_map.mp hr with ⟨k, _, rfl⟩
    exact ⟨rfl, rfl, rfl⟩

end EDA
